import Mathlib

/-!
Shallow embedding of the order-flow state machine, payment-gateway client and
payment-reconciliation engine of `src/telegram_game_currency_bot.py`.

Modelling conventions:
- SQLite tables are lists of rows. The `catalog` table is a list of
  `CatalogEntry`; the `orders` table a list of `Order`. The SQL query
  `SELECT price_usdt FROM catalog WHERE game=? AND package=?` followed by
  `fetchone()` is the first matching row (`getPrice`); the SQL statement
  `UPDATE orders SET status='paid' WHERE id=?` maps the update over every row
  whose primary key matches (at most one, id being the primary key).
- The aiogram FSM: `state.finish()` clears both the state and the stored data,
  returning the session to aiogram's default "no state" (`FSMState.noState`).
  `OrderFSM.choosing_game` is declared in the source but never set; the state
  in which item-group selection happens (and in which `/start` is answered) is
  the default state, so `noState` is the machine's initial state.
- aiogram dispatch: a handler registered with `state=X` fires only in state
  `X`; a handler with `state="*"` (only `pick_game`) fires in any state; a
  handler with no state filter (`cmd_start`, `check_payment`) fires only in
  the default state. An event no registered handler matches is dropped with
  no state change. Notably, no handler is registered for the `back:*`
  callback data produced by `packages_kb` and `assets_kb`.
- Callback-data strings are decoded once at the boundary into the `Event`
  variants (`game:g` into `cbGame g`, `check:oid:iid` into `cbCheck oid iid`,
  and so on), mirroring the prefix routing of the handlers.
- The Crypto Pay HTTP boundary is an environment: `Env.createInvoice` and
  `Env.getInvoice` are the responses the gateway gives during the step being
  modelled. `crypto_pay` catches every exception and returns a failure value,
  so in the model a gateway failure is `none`, never a fault: the step
  functions are total.
- A Python exception inside a handler body (KeyError on missing session data,
  TypeError from `int(None)`, an IntegrityError from a duplicate primary key)
  aborts the handler: no further effect runs, the state is left as it was at
  that point, and nothing is reported.
- Prices (`REAL` columns, Python floats) are modelled as rationals; `round2`
  models `round(amount, 2)` (round half to even at two decimals).
-/

namespace Bot

/-- A row of the `catalog` table: (game, package, price_usdt). -/
structure CatalogEntry where
  game : String
  package : String
  price_usdt : ℚ
deriving DecidableEq

/-- The commit-time price query: first catalog row matching (game, package). -/
def getPrice (catalog : List CatalogEntry) (game package : String) : Option ℚ :=
  (catalog.find? (fun e => e.game == game && e.package == package)).map
    (fun e => e.price_usdt)

/-- The gateway's reply to `createInvoice`: the fields the code reads.
`invoice.get("invoice_id")` and `invoice.get("pay_url")` may each be absent. -/
structure InvoiceResult where
  invoice_id : Option ℤ
  pay_url : Option String
deriving DecidableEq

/-- The gateway's reply to `getInvoices` for one invoice: the code reads only
`inv.get("status")`, which may be absent. -/
structure Invoice where
  status : Option String
deriving DecidableEq

/-- A row of the `orders` table. -/
structure Order where
  id : String
  user_id : ℤ
  username : Option String
  game : String
  package : String
  price_usdt : ℚ
  asset : String
  nickname : String
  created_at : ℤ
  status : String
  invoice_id : Option ℤ
  pay_url : Option String
deriving DecidableEq

/-- The aiogram FSM states. `noState` is aiogram's default (no state set);
`choosing_game` is declared in the source but never entered. -/
inductive FSMState
  | noState
  | choosing_game
  | choosing_package
  | entering_nickname
  | choosing_asset
deriving DecidableEq

/-- The per-buyer FSM data storage (keys `game`, `package`, `nickname`). -/
structure SessionData where
  game : Option String
  package : Option String
  nickname : Option String
deriving DecidableEq

/-- Empty data storage, as after `state.finish()`. -/
def SessionData.empty : SessionData := ⟨none, none, none⟩

/-- The whole mutable state touched by the handlers for one buyer: the FSM
state, the FSM data, and the durable `orders` table. -/
structure BotState where
  fsm : FSMState
  data : SessionData
  orders : List Order
deriving DecidableEq

/-- The state before any interaction: default FSM state, no data, no orders. -/
def BotState.init : BotState := ⟨.noState, .empty, []⟩

/-- The environment of one handler invocation: the catalog contents, the
gateway's responses during this step, the fresh `uuid4().hex[:12]` the step
would draw, the clock, and the requesting user's identity. -/
structure Env where
  catalog : List CatalogEntry
  createInvoice : String → ℚ → String → String → Option InvoiceResult
  getInvoice : ℤ → Option Invoice
  freshId : String
  now : ℤ
  userId : ℤ
  username : Option String

/-- One incoming update, already decoded from its callback-data string. -/
inductive Event
  | start
  | message (text : String)
  | cbGame (game : String)
  | cbPkg (package : String)
  | cbAsset (asset : String)
  | cbBack (target : String)
  | cbCheck (order_id : String) (invoice_id : ℤ)
deriving DecidableEq

/-- The buyer-visible outcome of a handler invocation, one constructor per
distinct message/alert the source can emit. -/
inductive Report
  | promptGames
  | promptPackages
  | promptNickname
  | promptAssets
  | priceError
  | invoiceCreateError
  | orderSummary (order_id : String)
  | checkError
  | paidOk (order_id : String)
  | notYetPaid
  | invoiceInvalid
deriving DecidableEq

/-- Floor of a rational, computed from numerator and denominator. -/
def floorQ (q : ℚ) : ℤ := Int.fdiv q.num (q.den : ℤ)

/-- Models `round(amount, 2)`: round to two decimal places, half to even. -/
def round2 (q : ℚ) : ℚ :=
  let shifted := q * 100
  let n := floorQ shifted
  let frac := shifted - (n : ℚ)
  let r : ℤ :=
    if frac < 1/2 then n
    else if 1/2 < frac then n + 1
    else if n % 2 = 0 then n else n + 1
  (r : ℚ) / 100

/-- Python whitespace characters stripped by `str.strip()` (ASCII range). -/
def isPySpace (c : Char) : Bool :=
  c == ' ' || c == '\t' || c == '\n' || c == '\r' || c.toNat == 11 || c.toNat == 12

/-- Models Python `str.strip()`: drop leading and trailing whitespace. -/
def pyStrip (s : String) : String :=
  String.mk (((s.data.dropWhile isPySpace).reverse.dropWhile isPySpace).reverse)

/-- Models `create_invoice`: the gateway call with the amount rounded to two
decimal places; `none` on any failure (the `crypto_pay` wrapper never
raises). -/
def create_invoice (env : Env) (asset : String) (amount : ℚ)
    (description payload : String) : Option InvoiceResult :=
  env.createInvoice asset (round2 amount) description payload

/-- Handler `cmd_start`: finish the session and show the game keyboard. -/
def cmd_start (s : BotState) : BotState × List Report :=
  ({ s with fsm := .noState, data := .empty }, [.promptGames])

/-- Handler `pick_game` (fires in any state): record the game, enter
`choosing_package`, show the package keyboard. -/
def pick_game (s : BotState) (game : String) : BotState × List Report :=
  ({ s with data := { s.data with game := some game }, fsm := .choosing_package },
   [.promptPackages])

/-- Handler `pick_package`: record the package, enter `entering_nickname`. -/
def pick_package (s : BotState) (package : String) : BotState × List Report :=
  ({ s with
      fsm := .entering_nickname
      data := { s.data with package := some package } },
   [.promptNickname])

/-- Handler `got_nickname`: record the stripped text, enter `choosing_asset`.
The length filter is applied by the dispatcher, on the raw text. -/
def got_nickname (s : BotState) (text : String) : BotState × List Report :=
  ({ s with
      fsm := .choosing_asset
      data := { s.data with nickname := some (pyStrip text) } },
   [.promptAssets])

/-- The Order row inserted by a successful commit. -/
def commitOrder (env : Env) (game pkg nick asset : String) (price : ℚ)
    (invoice_id : ℤ) (pay_url : Option String) : Order :=
  { id := env.freshId, user_id := env.userId, username := env.username,
    game := game, package := pkg, price_usdt := price, asset := asset,
    nickname := nick, created_at := env.now, status := "pending",
    invoice_id := some invoice_id, pay_url := pay_url }

/-- Handler `choose_asset` (the commit step): re-read the price from the
catalog; on a vanished pair report a price error and finish the session; ask
the gateway for an invoice, aborting with an error and an unchanged session
when it fails; insert the pending Order row; report the summary and finish
the session. A missing session key, a missing `invoice_id` in the gateway
reply, or a duplicate primary key aborts the handler with no effect. -/
def choose_asset (env : Env) (s : BotState) (asset : String) :
    BotState × List Report :=
  match s.data.game, s.data.package, s.data.nickname with
  | some game, some pkg, some nick =>
    match getPrice env.catalog game pkg with
    | none => ({ s with fsm := .noState, data := .empty }, [.priceError])
    | some price =>
      let order_id := env.freshId
      let desc := game ++ " - " ++ pkg ++ " (nick: " ++ nick ++ ")"
      match create_invoice env asset price desc order_id with
      | none => (s, [.invoiceCreateError])
      | some invoice =>
        match invoice.invoice_id with
        | none => (s, [])
        | some invoice_id =>
          if s.orders.any (fun o => o.id == order_id) then (s, [])
          else
            ({ fsm := .noState, data := .empty,
               orders := s.orders ++
                 [commitOrder env game pkg nick asset price invoice_id
                    invoice.pay_url] },
             [.orderSummary order_id])
  | _, _, _ => (s, [])

/-- Handler `check_payment` (the reconciliation engine): fetch the invoice the
invocation names; absent reports a verification error; "paid" sets the named
order's status to `paid` and reports success; "active" reports not-yet-paid;
anything else reports the invoice invalid. Only the "paid" branch writes to
the orders table. -/
def check_payment (env : Env) (s : BotState) (order_id : String)
    (invoice_id : ℤ) : BotState × List Report :=
  match env.getInvoice invoice_id with
  | none => (s, [.checkError])
  | some inv =>
    if inv.status == some "paid" then
      ({ s with orders := s.orders.map (fun o =>
           if o.id == order_id then { o with status := "paid" } else o) },
       [.paidOk order_id])
    else if inv.status == some "active" then
      (s, [.notYetPaid])
    else
      (s, [.invoiceInvalid])

/-- The dispatcher: route one event to the unique handler whose callback
prefix and state filter match, or drop it. -/
def stepEvent (env : Env) (s : BotState) (e : Event) : BotState × List Report :=
  match e with
  | .start => if s.fsm = .noState then cmd_start s else (s, [])
  | .message t =>
      if s.fsm = .entering_nickname ∧ t ≠ "" ∧ 1 < t.length then
        got_nickname s t
      else (s, [])
  | .cbGame g => pick_game s g
  | .cbPkg p => if s.fsm = .choosing_package then pick_package s p else (s, [])
  | .cbAsset a => if s.fsm = .choosing_asset then choose_asset env s a else (s, [])
  | .cbBack _ => (s, [])
  | .cbCheck oid iid =>
      if s.fsm = .noState then check_payment env s oid iid else (s, [])

/-- Run a sequence of events, each with the environment (gateway responses,
fresh id, clock) of its own invocation. -/
def runTrace (steps : List (Env × Event)) (s : BotState) : BotState :=
  steps.foldl (fun st p => (stepEvent p.1 st p.2).1) s

/-- A state is reachable when some event sequence produces it from the
initial state. -/
def Reachable (s : BotState) : Prop :=
  ∃ steps, runTrace steps BotState.init = s

/-! Concrete fixtures: the sample catalog of `ensure_sample_catalog`, and
environments and states for particular scenarios. -/

/-- An environment holding the sample catalog, with a gateway that answers
nothing; scenario environments override the gateway fields. -/
def baseEnv : Env :=
  { catalog := [⟨"Genshin Impact", "60 Genesis Crystals", 11/10⟩,
                ⟨"Genshin Impact", "330 Genesis Crystals", 11/2⟩,
                ⟨"World of Warcraft", "Gold 100k (EU)", 7⟩]
    createInvoice := fun _ _ _ _ => none
    getInvoice := fun _ => none
    freshId := "ord1"
    now := 100
    userId := 7
    username := some "buyer" }

/-- A pending order, as inserted by a successful commit of the first sample
catalog entry, with invoice 9. -/
def pendingOrder : Order :=
  { id := "o9", user_id := 7, username := some "buyer",
    game := "Genshin Impact", package := "60 Genesis Crystals",
    price_usdt := 11/10, asset := "USDT", nickname := "Player123",
    created_at := 100, status := "pending", invoice_id := some 9,
    pay_url := some "https://pay.example/9" }

/-- A finished session whose orders table holds the pending order. -/
def checkState : BotState := ⟨.noState, .empty, [pendingOrder]⟩

/-- A gateway that reports invoice 9 as expired. -/
def expiredEnv : Env :=
  { baseEnv with getInvoice := fun i => if i = 9 then some ⟨some "expired"⟩ else none }

/-- A gateway that reports invoice 9 as paid. -/
def paidEnv : Env :=
  { baseEnv with getInvoice := fun i => if i = 9 then some ⟨some "paid"⟩ else none }

/-- The pending order after payment. -/
def paidOrder : Order := { pendingOrder with status := "paid" }

/-- A finished session whose orders table holds the already-paid order. -/
def paidState : BotState := ⟨.noState, .empty, [paidOrder]⟩

/-- A session in `choosing_package` (spec state `choosing_variant`). -/
def packageState : BotState :=
  ⟨.choosing_package, ⟨some "Genshin Impact", none, none⟩, []⟩

/-- A session in `choosing_asset` (spec state `choosing_settlement_asset`)
with all three data keys recorded. -/
def assetState : BotState :=
  ⟨.choosing_asset,
   ⟨some "Genshin Impact", some "60 Genesis Crystals", some "Player123"⟩, []⟩

/-- A session in `entering_nickname` (spec state
`entering_delivery_identifier`) with game and package recorded. -/
def nickState : BotState :=
  ⟨.entering_nickname, ⟨some "Genshin Impact", some "60 Genesis Crystals", none⟩, []⟩

/-- A gateway that accepts invoice creation, answering with invoice 42 as in
the spec scenario. -/
def gatewayEnv : Env :=
  { baseEnv with
      createInvoice := fun _ _ _ _ =>
        some ⟨some 42, some "https://pay.example/42"⟩ }

/-- An environment whose catalog is empty, so no pair resolves at commit. -/
def emptyCatalogEnv : Env := { baseEnv with catalog := [] }

/-! Shared lemmas about the dispatcher and the commit step. -/

/-- In state `choosing_asset`, an asset callback is routed to the commit
handler. -/
theorem stepEvent_cbAsset_of_choosing (env : Env) (s : BotState) (a : String)
    (hf : s.fsm = .choosing_asset) :
    stepEvent env s (.cbAsset a) = choose_asset env s a := by
  simp [stepEvent, hf]

/-- The commit handler on the happy path: price resolved, invoice created
with an id, fresh order id unused. It inserts exactly the one commit row and
finishes the session. -/
theorem choose_asset_success (env : Env) (s : BotState)
    (a g p n : String) (pr : ℚ) (invo : InvoiceResult) (iid : ℤ)
    (hg : s.data.game = some g) (hp : s.data.package = some p)
    (hn : s.data.nickname = some n)
    (hprice : getPrice env.catalog g p = some pr)
    (hinv : env.createInvoice a (round2 pr)
        (g ++ " - " ++ p ++ " (nick: " ++ n ++ ")") env.freshId = some invo)
    (hiid : invo.invoice_id = some iid)
    (hfresh : s.orders.any (fun o => o.id == env.freshId) = false) :
    choose_asset env s a =
      (⟨.noState, .empty,
        s.orders ++ [commitOrder env g p n a pr iid invo.pay_url]⟩,
       [.orderSummary env.freshId]) := by
  simp [choose_asset, create_invoice, hg, hp, hn, hprice, hinv, hiid, hfresh]

/-- Every orders table a commit invocation can produce: unchanged, or with
exactly one appended row whose status is `pending`. -/
theorem choose_asset_orders_cases (env : Env) (s : BotState) (a : String) :
    (choose_asset env s a).1.orders = s.orders ∨
    ∃ ord, (choose_asset env s a).1.orders = s.orders ++ [ord] ∧
      ord.status = "pending" := by
  simp only [choose_asset]
  repeat' split
  all_goals first
    | (left; rfl)
    | (right; exact ⟨_, rfl, rfl⟩)

/-! Theorems settling the claims. -/

/-- C5: the spec claims a "back" event in `choosing_variant` returns the
session to `choosing_item_group`, and in `choosing_settlement_asset` returns
it to `choosing_variant`. The keyboards emit callback data `back:games` and
`back:packages`, but no handler is registered for either, so the dispatcher
drops both events with no state change at all: the back buttons do nothing. -/
theorem back_events_do_nothing :
    stepEvent baseEnv packageState (.cbBack "games") = (packageState, []) ∧
    stepEvent baseEnv assetState (.cbBack "packages") = (assetState, []) :=
  ⟨rfl, rfl⟩

/-- C9: a text message of length at most one received in state
`entering_nickname` is matched by no handler: the session state, its data and
the orders table are all unchanged and nothing is reported. -/
theorem short_text_no_advance (env : Env) (s : BotState) (t : String)
    (_hf : s.fsm = .entering_nickname) (hl : t.length ≤ 1) :
    stepEvent env s (.message t) = (s, []) := by
  simp only [stepEvent]
  rw [if_neg]
  rintro ⟨-, -, h3⟩
  omega

/-- C9 witness: the empty string in `entering_nickname` changes nothing. -/
theorem short_text_no_advance_w :
    stepEvent baseEnv nickState (.message "") = (nickState, []) :=
  short_text_no_advance baseEnv nickState "" rfl (by decide)

/-- C1 counterexample: the claim says a gateway status outside
{paid, active} makes the engine update the persisted Order's status to
`invalid`; on a concrete pending order whose invoice the gateway reports as
expired, the engine reports the invoice invalid but the stored status is
still `pending`, not `invalid`. -/
theorem check_expired_status_not_persisted :
    expiredEnv.getInvoice 9 = some ⟨some "expired"⟩ ∧
    (stepEvent expiredEnv checkState (.cbCheck "o9" 9)).1.orders.map Order.status
      = ["pending"] ∧
    (stepEvent expiredEnv checkState (.cbCheck "o9" 9)).2 = [.invoiceInvalid] := by
  refine ⟨rfl, ?_, rfl⟩
  rfl

/-- C1 amended: for a gateway status outside {"paid", "active"} the engine
reports the invoice invalid and leaves the orders table (hence every
persisted status, in particular never setting one to `paid`) unchanged; it
does not write `invalid`. -/
theorem check_other_status_leaves_orders (env : Env) (s : BotState)
    (oid : String) (iid : ℤ) (inv : Invoice)
    (hg : env.getInvoice iid = some inv)
    (hp : inv.status ≠ some "paid") (ha : inv.status ≠ some "active") :
    check_payment env s oid iid = (s, [.invoiceInvalid]) := by
  simp [check_payment, hg, hp, ha]

/-- C1 amended witness: the expired invoice scenario, via the theorem. -/
theorem check_other_status_leaves_orders_w :
    check_payment expiredEnv checkState "o9" 9 = (checkState, [.invoiceInvalid]) :=
  check_other_status_leaves_orders expiredEnv checkState "o9" 9 ⟨some "expired"⟩
    rfl (by decide) (by decide)

/-- C8: reconciliation of an already-paid order with the gateway still
reporting "paid" is idempotent: both the first and the second invocation
leave the orders table unchanged (the order stays `paid`) and report the same
success outcome. -/
theorem check_paid_idempotent (env : Env) (s : BotState) (oid : String)
    (iid : ℤ) (inv : Invoice)
    (hg : env.getInvoice iid = some inv) (hp : inv.status = some "paid")
    (halready : ∀ o ∈ s.orders, o.id = oid → o.status = "paid") :
    check_payment env s oid iid = (s, [.paidOk oid]) ∧
    check_payment env (check_payment env s oid iid).1 oid iid
      = (s, [.paidOk oid]) := by
  have hmap : s.orders.map (fun o =>
      if o.id = oid then { o with status := "paid" } else o) = s.orders := by
    conv_rhs => rw [← List.map_id s.orders]
    apply List.map_congr_left
    intro o ho
    by_cases hid : o.id = oid
    · have hst := halready o ho hid
      rw [if_pos hid]
      cases o
      simp_all
    · rw [if_neg hid]
      rfl
  have h1 : check_payment env s oid iid = (s, [.paidOk oid]) := by
    simp [check_payment, hg, hp, hmap]
  exact ⟨h1, by rw [h1]; exact h1⟩

/-- C3: a commit whose recorded (game, package) resolves in the catalog at
commit time appends exactly one Order row, and that row's price equals the
price the catalog gives for the pair in this very invocation (the session
never stores a price, so no selection-time price can be used). -/
theorem commit_inserts_one_order_at_commit_price (env : Env) (s : BotState)
    (a g p n : String) (pr : ℚ) (invo : InvoiceResult) (iid : ℤ)
    (hf : s.fsm = .choosing_asset)
    (hg : s.data.game = some g) (hp : s.data.package = some p)
    (hn : s.data.nickname = some n)
    (hprice : getPrice env.catalog g p = some pr)
    (hinv : env.createInvoice a (round2 pr)
        (g ++ " - " ++ p ++ " (nick: " ++ n ++ ")") env.freshId = some invo)
    (hiid : invo.invoice_id = some iid)
    (hfresh : s.orders.any (fun o => o.id == env.freshId) = false) :
    stepEvent env s (.cbAsset a) =
      (⟨.noState, .empty,
        s.orders ++ [commitOrder env g p n a pr iid invo.pay_url]⟩,
       [.orderSummary env.freshId]) ∧
    (commitOrder env g p n a pr iid invo.pay_url).price_usdt = pr := by
  refine ⟨?_, rfl⟩
  rw [stepEvent_cbAsset_of_choosing env s a hf]
  exact choose_asset_success env s a g p n pr invo iid hg hp hn hprice hinv
    hiid hfresh

/-- C3 witness: the spec scenario — Genshin Impact, 60 Genesis Crystals at
price 1.1, nickname Player123, asset USDT, gateway invoice 42. -/
theorem commit_inserts_one_order_at_commit_price_w :
    stepEvent gatewayEnv assetState (.cbAsset "USDT") =
      (⟨.noState, .empty,
        [commitOrder gatewayEnv "Genshin Impact" "60 Genesis Crystals"
          "Player123" "USDT" (11/10) 42 (some "https://pay.example/42")]⟩,
       [.orderSummary "ord1"]) ∧
    (commitOrder gatewayEnv "Genshin Impact" "60 Genesis Crystals"
      "Player123" "USDT" (11/10) 42
      (some "https://pay.example/42")).price_usdt = 11/10 :=
  commit_inserts_one_order_at_commit_price gatewayEnv assetState "USDT"
    "Genshin Impact" "60 Genesis Crystals" "Player123" (11/10)
    ⟨some 42, some "https://pay.example/42"⟩ 42 rfl rfl rfl rfl rfl
    rfl rfl rfl

/-- C4: after a successful commit the session is finished, so delivering the
same asset-selection trigger a second time, with any environment, matches no
handler: the state after the first commit has exactly one more order and the
second trigger leaves it untouched, creating no second Order. -/
theorem duplicate_commit_trigger_creates_no_second_order
    (env env2 : Env) (s : BotState)
    (a g p n : String) (pr : ℚ) (invo : InvoiceResult) (iid : ℤ)
    (hf : s.fsm = .choosing_asset)
    (hg : s.data.game = some g) (hp : s.data.package = some p)
    (hn : s.data.nickname = some n)
    (hprice : getPrice env.catalog g p = some pr)
    (hinv : env.createInvoice a (round2 pr)
        (g ++ " - " ++ p ++ " (nick: " ++ n ++ ")") env.freshId = some invo)
    (hiid : invo.invoice_id = some iid)
    (hfresh : s.orders.any (fun o => o.id == env.freshId) = false) :
    (stepEvent env s (.cbAsset a)).1.orders.length = s.orders.length + 1 ∧
    stepEvent env2 (stepEvent env s (.cbAsset a)).1 (.cbAsset a)
      = ((stepEvent env s (.cbAsset a)).1, []) := by
  have h1 : stepEvent env s (.cbAsset a) =
      (⟨.noState, .empty,
        s.orders ++ [commitOrder env g p n a pr iid invo.pay_url]⟩,
       [.orderSummary env.freshId]) := by
    rw [stepEvent_cbAsset_of_choosing env s a hf]
    exact choose_asset_success env s a g p n pr invo iid hg hp hn hprice hinv
      hiid hfresh
  rw [h1]
  exact ⟨by simp, rfl⟩

/-- C4 witness: committing in the spec scenario and re-delivering the same
trigger; the duplicate is dropped. -/
theorem duplicate_commit_trigger_creates_no_second_order_w :
    (stepEvent gatewayEnv assetState (.cbAsset "USDT")).1.orders.length
      = assetState.orders.length + 1 ∧
    stepEvent gatewayEnv (stepEvent gatewayEnv assetState (.cbAsset "USDT")).1
      (.cbAsset "USDT")
      = ((stepEvent gatewayEnv assetState (.cbAsset "USDT")).1, []) :=
  duplicate_commit_trigger_creates_no_second_order gatewayEnv gatewayEnv
    assetState "USDT" "Genshin Impact" "60 Genesis Crystals" "Player123"
    (11/10) ⟨some 42, some "https://pay.example/42"⟩ 42 rfl rfl rfl rfl
    rfl rfl rfl rfl

/-- C6: when invoice creation returns no result, the commit aborts before any
insert: no Order row, a gateway-error report, and the session is exactly as
it was — still in `choosing_asset` with its data, so the same commit can be
retried. The step function is total, so the failure is an ordinary return
value, never a raised fault. -/
theorem invoice_failure_keeps_session (env : Env) (s : BotState)
    (a g p n : String) (pr : ℚ)
    (hf : s.fsm = .choosing_asset)
    (hg : s.data.game = some g) (hp : s.data.package = some p)
    (hn : s.data.nickname = some n)
    (hprice : getPrice env.catalog g p = some pr)
    (hinv : env.createInvoice a (round2 pr)
        (g ++ " - " ++ p ++ " (nick: " ++ n ++ ")") env.freshId = none) :
    stepEvent env s (.cbAsset a) = (s, [.invoiceCreateError]) := by
  rw [stepEvent_cbAsset_of_choosing env s a hf]
  simp [choose_asset, create_invoice, hg, hp, hn, hprice, hinv]

/-- C6 witness: the gateway that always fails, on the completed session. -/
theorem invoice_failure_keeps_session_w :
    stepEvent baseEnv assetState (.cbAsset "USDT")
      = (assetState, [.invoiceCreateError]) :=
  invoice_failure_keeps_session baseEnv assetState "USDT" "Genshin Impact"
    "60 Genesis Crystals" "Player123" (11/10) rfl rfl rfl rfl rfl rfl

/-- C7: when the recorded pair no longer resolves in the catalog at commit
time, no Order row is created, a pricing error is reported, and the session
is finished — returned to the default state with empty data, which is the
machine's initial state, the one in which item-group selection is accepted. -/
theorem vanished_price_resets_session (env : Env) (s : BotState)
    (a g p n : String)
    (hf : s.fsm = .choosing_asset)
    (hg : s.data.game = some g) (hp : s.data.package = some p)
    (hn : s.data.nickname = some n)
    (hprice : getPrice env.catalog g p = none) :
    stepEvent env s (.cbAsset a) = (⟨.noState, .empty, s.orders⟩, [.priceError]) := by
  rw [stepEvent_cbAsset_of_choosing env s a hf]
  simp [choose_asset, hg, hp, hn, hprice]

/-- C7 witness: the catalog emptied after selection; the commit aborts and
the session is back at the initial state with no orders created. -/
theorem vanished_price_resets_session_w :
    stepEvent emptyCatalogEnv assetState (.cbAsset "USDT")
      = (⟨.noState, .empty, []⟩, [.priceError]) :=
  vanished_price_resets_session emptyCatalogEnv assetState "USDT"
    "Genshin Impact" "60 Genesis Crystals" "Player123" rfl rfl rfl rfl rfl

/-- C8 witness: the paid order scenario, via the theorem. -/
theorem check_paid_idempotent_w :
    check_payment paidEnv paidState "o9" 9 = (paidState, [.paidOk "o9"]) ∧
    check_payment paidEnv (check_payment paidEnv paidState "o9" 9).1 "o9" 9
      = (paidState, [.paidOk "o9"]) :=
  check_paid_idempotent paidEnv paidState "o9" 9 ⟨some "paid"⟩ rfl rfl
    (by decide)

/-- A gateway that accepts invoice creation, answering with invoice 1. -/
def commitEnv : Env :=
  { baseEnv with
      createInvoice := fun _ _ _ _ => some ⟨some 1, some "https://pay.example/1"⟩ }

/-- A gateway that reports invoice 1 still awaiting payment and invoice 2
paid. -/
def crossCheckEnv : Env :=
  { baseEnv with
      getInvoice := fun i =>
        if i = 1 then some ⟨some "active"⟩
        else if i = 2 then some ⟨some "paid"⟩ else none }

/-- A complete flow committing order `ord1` against invoice 1, followed by a
reconciliation invocation naming order `ord1` but invoice 2. -/
def crossTrace : List (Env × Event) :=
  [(commitEnv, .cbGame "Genshin Impact"),
   (commitEnv, .cbPkg "60 Genesis Crystals"),
   (commitEnv, .message "Player123"),
   (commitEnv, .cbAsset "USDT"),
   (crossCheckEnv, .cbCheck "ord1" 2)]

/-- C2 counterexample: a reachable run in which order `ord1`, whose own
recorded payment_request_id is 1, ends up with status `paid` although the
gateway reported invoice 1 as "active" (and during commit as absent) at
every step — the paid status came from an observation of invoice 2, a
different payment request, because the engine never checks the supplied
invoice id against the order row. -/
theorem paid_from_foreign_invoice_reachable :
    (runTrace (crossTrace.take 4) BotState.init).orders.map
      (fun o => (o.id, o.invoice_id, o.status))
      = [("ord1", some 1, "pending")] ∧
    (runTrace crossTrace BotState.init).orders.map
      (fun o => (o.id, o.invoice_id, o.status))
      = [("ord1", some 1, "paid")] ∧
    crossCheckEnv.getInvoice 1 = some ⟨some "active"⟩ ∧
    commitEnv.getInvoice 1 = none := ⟨rfl, rfl, rfl, rfl⟩

/-- C2 amended: a paid status can only arise in a reconciliation step whose
gateway observation — of the invoice id supplied in the invocation, which
the code does not check against the order's own recorded
payment_request_id — reported "paid": after any single event, every paid
order either was already stored, or is the status-paid copy of a stored
order targeted by a `cbCheck` event for whose supplied invoice id the
gateway reported "paid" in that step. No other event, and no other gateway
answer, produces a paid order; in particular new orders are never inserted
paid. -/
theorem paid_status_provenance (env : Env) (s : BotState) (e : Event)
    (o' : Order)
    (h1 : o' ∈ (stepEvent env s e).1.orders) (h2 : o'.status = "paid") :
    o' ∈ s.orders ∨
    ∃ oid iid inv, e = Event.cbCheck oid iid ∧
      env.getInvoice iid = some inv ∧ inv.status = some "paid" ∧
      o'.id = oid ∧ ∃ o ∈ s.orders, o' = { o with status := "paid" } := by
  cases e with
  | start =>
      left
      simp only [stepEvent] at h1
      split at h1 <;> simpa [cmd_start] using h1
  | message t =>
      left
      simp only [stepEvent] at h1
      split at h1 <;> simpa [got_nickname] using h1
  | cbGame g =>
      left
      simpa [stepEvent, pick_game] using h1
  | cbPkg p =>
      left
      simp only [stepEvent] at h1
      split at h1 <;> simpa [pick_package] using h1
  | cbBack t =>
      left
      simpa [stepEvent] using h1
  | cbAsset a =>
      left
      simp only [stepEvent] at h1
      split at h1
      · rcases choose_asset_orders_cases env s a with hsame | ⟨ord, heq, hpend⟩
        · rwa [hsame] at h1
        · rw [heq] at h1
          rcases List.mem_append.1 h1 with h | h
          · exact h
          · rw [List.mem_singleton.1 h] at h2
            rw [hpend] at h2
            exact absurd h2 (by decide)
      · exact h1
  | cbCheck oid iid =>
      simp only [stepEvent] at h1
      split at h1
      · simp only [check_payment] at h1
        split at h1
        · left; exact h1
        · next inv hgi =>
            split at h1
            · next hps =>
                have h1' : o' ∈ s.orders.map (fun o =>
                    if o.id == oid then { o with status := "paid" } else o) := h1
                rcases List.mem_map.1 h1' with ⟨o, ho, hfo⟩
                by_cases hid : o.id = oid
                · right
                  refine ⟨oid, iid, inv, rfl, hgi, ?_, ?_, o, ho, ?_⟩
                  · exact beq_iff_eq.1 hps
                  · rw [← hfo]; simp [beq_iff_eq, hid]
                  · rw [← hfo]; simp [beq_iff_eq, hid]
                · left
                  rw [← hfo]
                  simpa [beq_iff_eq, hid] using ho
            · split at h1 <;> (left; exact h1)
      · left; exact h1

/-- C2 amended witness: reconciling the pending order with its own invoice 9,
which the gateway reports paid, yields the paid copy of a stored order via a
check event. -/
theorem paid_status_provenance_w :
    paidOrder ∈ checkState.orders ∨
    ∃ oid iid inv, (Event.cbCheck "o9" 9 : Event) = Event.cbCheck oid iid ∧
      paidEnv.getInvoice iid = some inv ∧ inv.status = some "paid" ∧
      paidOrder.id = oid ∧
      ∃ o ∈ checkState.orders, paidOrder = { o with status := "paid" } :=
  paid_status_provenance paidEnv checkState (.cbCheck "o9" 9) paidOrder
    (by simp [stepEvent, check_payment, checkState, paidEnv, paidState,
          paidOrder, pendingOrder])
    rfl

/-- C10: the stored delivery identifier is the raw text with surrounding
whitespace stripped, while the length guard is applied to the raw text: the
all-whitespace input of length three advances the session to
`choosing_asset` storing the empty identifier, and a single letter padded
with spaces advances it storing a one-character identifier. -/
theorem stripped_identifier_can_be_short :
    stepEvent baseEnv nickState (.message "   ")
      = (⟨.choosing_asset,
          ⟨some "Genshin Impact", some "60 Genesis Crystals", some ""⟩, []⟩,
         [.promptAssets]) ∧
    1 < ("   " : String).length ∧ pyStrip "   " = "" ∧
    stepEvent baseEnv nickState (.message " a ")
      = (⟨.choosing_asset,
          ⟨some "Genshin Impact", some "60 Genesis Crystals", some "a"⟩, []⟩,
         [.promptAssets]) ∧
    (pyStrip " a ").length = 1 :=
  ⟨rfl, by decide, rfl, rfl, rfl⟩

end Bot
